import Mathlib

/-!
Shallow embedding of the `restapi` package of tpretz/terraform-provider-restapi
(RADIUS-profile fork).  The active resource implementation is the
`resource_profile.go` revision whose package compiles: schema declarations,
`buildProfileObject`, `getProfile`, `resourceProfileRead`, and the stubbed
`resourceProfileCreate` / `resourceProfileUpdate` / `resourceProfileDelete`.

Go machine integers are modelled as `Int` (the values in play are bounded by
validation, no overflow is reachable), JSON documents as an explicit value
type, and the HTTP layer as a function from requests to responses together
with an explicit trace of the requests each operation issues.
-/

namespace RestApi

/-- JSON value, the parsed form of a request or response body.  Numbers are
restricted to integers, which covers every field of the profile wire format
(`weight` is the only numeric field). -/
inductive JValue where
  | null
  | bool (b : Bool)
  | num (n : Int)
  | str (s : String)
  | arr (xs : List JValue)
  | obj (fields : List (String × JValue))
deriving Repr

/-- Last match wins, following Go `encoding/json`, where a later duplicate
key overwrites an earlier one while decoding an object. -/
def jLookup (key : String) : List (String × JValue) → Option JValue
  | [] => none
  | (k, v) :: rest =>
    match jLookup key rest with
    | some r => some r
    | none => if k = key then some v else none

/-! ### Wire structs (`RadiusAttribute`, `RadiusProfileAttributes`, `RadiusProfile`) -/

/-- Go struct `RadiusAttribute` with json tags
name, value, op (omitempty), expand, do_xlat, is_json. -/
structure RadiusAttribute where
  name : String
  value : List String
  op : String
  expand : Bool
  doXlat : Bool
  isJson : Bool
deriving Repr, DecidableEq

/-- Go struct `RadiusProfileAttributes` with json tags
reply (omitempty), control (omitempty). -/
structure RadiusProfileAttributes where
  reply : List RadiusAttribute
  control : List RadiusAttribute
deriving Repr, DecidableEq

/-- Go struct `RadiusProfile` with json tags id, state, weight,
depends (omitempty), description (omitempty), radius,
parameter_schema (omitempty).  The `Schema interface` field holds an
arbitrary JSON value; `none` is the nil interface, which `omitempty`
drops while marshalling. -/
structure RadiusProfile where
  id : String
  state : String
  weight : Int
  depends : List String
  description : String
  radius : RadiusProfileAttributes
  parameterSchema : Option JValue
deriving Repr

/-- Zero value of `RadiusAttribute`, the struct Go unmarshalling starts from. -/
def zeroAttribute : RadiusAttribute :=
  ⟨"", [], "", false, false, false⟩

/-- Zero value of `RadiusProfile`. -/
def zeroProfile : RadiusProfile :=
  ⟨"", "", 0, [], "", ⟨[], []⟩, none⟩

/-! ### Marshalling (`json.Marshal` on the structs above)

Fields are emitted in struct order; an `omitempty` field is dropped at its
Go zero value (empty string, empty slice, nil interface). -/

/-- Marshal one `RadiusAttribute`. -/
def marshalAttribute (a : RadiusAttribute) : JValue :=
  .obj ([("name", .str a.name), ("value", .arr (a.value.map .str))]
    ++ (if a.op = "" then [] else [("op", .str a.op)])
    ++ [("expand", .bool a.expand), ("do_xlat", .bool a.doXlat),
        ("is_json", .bool a.isJson)])

/-- Marshal `RadiusProfileAttributes`; both slices carry `omitempty`. -/
def marshalRadius (pa : RadiusProfileAttributes) : JValue :=
  .obj ((if pa.reply = [] then [] else [("reply", .arr (pa.reply.map marshalAttribute))])
    ++ (if pa.control = [] then [] else [("control", .arr (pa.control.map marshalAttribute))]))

/-- Marshal a `RadiusProfile`. -/
def marshalProfile (p : RadiusProfile) : JValue :=
  .obj ([("id", .str p.id), ("state", .str p.state), ("weight", .num p.weight)]
    ++ (if p.depends = [] then [] else [("depends", .arr (p.depends.map .str))])
    ++ (if p.description = "" then [] else [("description", .str p.description)])
    ++ [("radius", marshalRadius p.radius)]
    ++ (match p.parameterSchema with
        | none => []
        | some j => [("parameter_schema", j)]))

/-! ### Unmarshalling (`json.Unmarshal` into the structs above)

A missing key leaves the zero value, JSON null leaves the current (zero)
value, and a shape mismatch is an error — the Go behaviour for these struct
types.  A malformed response body is represented by a `JValue` of the wrong
shape (both malformed text and wrong shape surface as a non-nil `error`
from `json.Unmarshal`). -/

/-- Decode an optional object field into a Go `string`. -/
def decodeString : Option JValue → Except String String
  | none => .ok ""
  | some .null => .ok ""
  | some (.str s) => .ok s
  | some _ => .error "cannot unmarshal into Go value of type string"

/-- Decode an optional object field into a Go `int`. -/
def decodeInt : Option JValue → Except String Int
  | none => .ok 0
  | some .null => .ok 0
  | some (.num n) => .ok n
  | some _ => .error "cannot unmarshal into Go value of type int"

/-- Decode an optional object field into a Go `bool`. -/
def decodeBool : Option JValue → Except String Bool
  | none => .ok false
  | some .null => .ok false
  | some (.bool b) => .ok b
  | some _ => .error "cannot unmarshal into Go value of type bool"

/-- Decode the elements of a JSON array into Go strings. -/
def decodeStrElems : List JValue → Except String (List String)
  | [] => .ok []
  | x :: xs => do
    let v ← decodeString (some x)
    let vs ← decodeStrElems xs
    pure (v :: vs)

/-- Decode an optional object field into a Go `string` slice. -/
def decodeStrList : Option JValue → Except String (List String)
  | none => .ok []
  | some .null => .ok []
  | some (.arr xs) => decodeStrElems xs
  | some _ => .error "cannot unmarshal into Go value of type string slice"

/-- Decode one `RadiusAttribute` from a JSON value. -/
def decodeAttribute : JValue → Except String RadiusAttribute
  | .null => .ok zeroAttribute
  | .obj fields => do
    let name ← decodeString (jLookup "name" fields)
    let value ← decodeStrList (jLookup "value" fields)
    let op ← decodeString (jLookup "op" fields)
    let expand ← decodeBool (jLookup "expand" fields)
    let doXlat ← decodeBool (jLookup "do_xlat" fields)
    let isJson ← decodeBool (jLookup "is_json" fields)
    pure ⟨name, value, op, expand, doXlat, isJson⟩
  | _ => .error "cannot unmarshal into Go value of type RadiusAttribute"

/-- Decode the elements of a JSON array into `RadiusAttribute` values. -/
def decodeAttrElems : List JValue → Except String (List RadiusAttribute)
  | [] => .ok []
  | x :: xs => do
    let v ← decodeAttribute x
    let vs ← decodeAttrElems xs
    pure (v :: vs)

/-- Decode an optional object field into a `RadiusAttribute` slice. -/
def decodeAttrList : Option JValue → Except String (List RadiusAttribute)
  | none => .ok []
  | some .null => .ok []
  | some (.arr xs) => decodeAttrElems xs
  | some _ => .error "cannot unmarshal into Go value of type RadiusAttribute slice"

/-- Decode an optional object field into `RadiusProfileAttributes`. -/
def decodeRadius : Option JValue → Except String RadiusProfileAttributes
  | none => .ok ⟨[], []⟩
  | some .null => .ok ⟨[], []⟩
  | some (.obj fields) => do
    let reply ← decodeAttrList (jLookup "reply" fields)
    let control ← decodeAttrList (jLookup "control" fields)
    pure ⟨reply, control⟩
  | some _ => .error "cannot unmarshal into Go value of type RadiusProfileAttributes"

/-- Decode the optional `parameter_schema` field into the `Schema interface`
field: JSON null stores the nil interface. -/
def decodeSchemaField : Option JValue → Option JValue
  | none => none
  | some .null => none
  | some j => some j

/-- Unmarshal a whole response body into a `RadiusProfile`
(`json.Unmarshal(data, &res)` in `getProfile`). -/
def unmarshalProfile : JValue → Except String RadiusProfile
  | .null => .ok zeroProfile
  | .obj fields => do
    let id ← decodeString (jLookup "id" fields)
    let state ← decodeString (jLookup "state" fields)
    let weight ← decodeInt (jLookup "weight" fields)
    let depends ← decodeStrList (jLookup "depends" fields)
    let description ← decodeString (jLookup "description" fields)
    let radius ← decodeRadius (jLookup "radius" fields)
    pure ⟨id, state, weight, depends, description, radius,
      decodeSchemaField (jLookup "parameter_schema" fields)⟩
  | _ => .error "cannot unmarshal into Go value of type RadiusProfile"

/-! ### HTTP layer

An operation under verification runs against a `Server`, a function from a
request to the wire-level outcome, and reports the list of requests it
issued (its trace), so that an operation that performs no network call is
one whose trace is empty. -/

/-- HTTP request as `sendRequest(method, path, data)` receives it. -/
structure Request where
  method : String
  path : String
  data : String
deriving Repr, DecidableEq

/-- Wire-level outcome of one request: a status code with a (parsed) body,
or a network-level failure (connection refused, timeout, TLS). -/
inductive HttpResponse where
  | resp (status : Nat) (body : JValue)
  | netFail (msg : String)

/-- Behaviour of the remote endpoint. -/
def Server : Type := Request → HttpResponse

/-- Error taxonomy of the client, as surfaced through Go `error` values:
transport failures, non-2xx API answers carrying status and body, and JSON
decoding failures. -/
inductive Err where
  | transportErr (msg : String)
  | apiErr (status : Nat) (body : JValue)
  | parseErr (msg : String)

/-- Modelled from the spec: `sendRequest` belongs to the API client file,
which is not under src/ (only its callers are).  Per the spec the transport
returns status code plus body and surfaces network failures as
`TransportError`; a non-2xx status other than 404 is an `ApiError` carrying
status and body, while 404 is handed back to the caller as a plain status
so the caller can translate it to the absent sentinel. -/
def sendRequest (server : Server) (method path data : String) :
    Except Err (Nat × JValue) :=
  match server ⟨method, path, data⟩ with
  | .netFail msg => .error (.transportErr msg)
  | .resp status body =>
    if 200 ≤ status ∧ status < 300 then .ok (status, body)
    else if status = 404 then .ok (status, body)
    else .error (.apiErr status body)

/-! ### Terraform resource state

The fields of the `radius_profile` resource as `schema.ResourceData` holds
them after defaults are applied: `d.Get` on a key returns the stored or
default value, `d.Set` replaces it, `d.Id` and `d.SetId` handle the tracked
identifier.  Attribute blocks are kept as `RadiusAttribute` records since
`buildProfileObject` reads exactly those six keys of each block. -/

structure ResourceData where
  tfId : String
  operator_id : String
  profile_id : String
  enabled : Bool
  weight : Int
  depends : List String
  description : String
  parameter_schema : Option JValue
  reply : List RadiusAttribute
  control : List RadiusAttribute
deriving Repr

/-- Go `buildProfileObject` (active revision): builds the wire struct from
the state and calls `d.SetId(fmt.Sprintf(...))` with the composite
identifier.  The `Schema` field is never populated (the body ends at the
bare comment line reserved for it) and the Go function's `error` result is
structurally nil, so the model returns the struct and the updated state. -/
def buildProfileObject (d : ResourceData) : RadiusProfile × ResourceData :=
  let itm : RadiusProfile :=
    { id := d.profile_id
      state := if d.enabled then "enabled" else "disabled"
      weight := d.weight
      depends := d.depends
      description := d.description
      radius := { reply := d.reply, control := d.control }
      parameterSchema := none }
  (itm, { d with tfId := d.operator_id ++ "/" ++ itm.id })

/-- Path `getProfile` formats for the direct read. -/
def profilePath (operator_id id : String) : String :=
  "/operator/" ++ operator_id ++ "/profile/" ++ id

/-- Request `getProfile` issues. -/
def profileReadRequest (operator_id id : String) : Request :=
  ⟨"GET", profilePath operator_id id, ""⟩

/-- Go `getProfile`: GET the profile path; propagate a transport or API
error; translate 404 into the absent sentinel (`none` with nil error);
otherwise unmarshal the body. -/
def getProfile (server : Server) (operator_id id : String) :
    Except Err (Option RadiusProfile) × List Request :=
  let req := profileReadRequest operator_id id
  let result :=
    match sendRequest server "GET" (profilePath operator_id id) "" with
    | .error e => .error e
    | .ok (status, data) =>
      if status = 404 then .ok none
      else
        match unmarshalProfile data with
        | .error msg => .error (.parseErr msg)
        | .ok res => .ok (some res)
  (result, [req])

/-- Field assignments `resourceProfileRead` performs once a profile was
fetched: `d.Set` on profile_id, enabled, weight, description, depends,
reply and control; `parameter_schema` and the tracked id are left as they
were (both assignments are commented out in the source). -/
def setProfileFields (d : ResourceData) (obj : RadiusProfile) : ResourceData :=
  { d with
    profile_id := obj.id
    enabled := obj.state == "enabled"
    weight := obj.weight
    description := obj.description
    depends := obj.depends
    reply := obj.radius.reply
    control := obj.radius.control }

/-- Go `resourceProfileRead`: fetch by the operator and profile ids held in
state; propagate errors with the state untouched; on the absent sentinel
clear the tracked id and succeed; otherwise copy the fetched fields into
state. -/
def resourceProfileRead (server : Server) (d : ResourceData) :
    Except Err Unit × ResourceData × List Request :=
  let (res, trace) := getProfile server d.operator_id d.profile_id
  match res with
  | .error e => (.error e, d, trace)
  | .ok none => (.ok (), { d with tfId := "" }, trace)
  | .ok (some obj) => (.ok (), setProfileFields d obj, trace)

/-- Go `resourceProfileCreate` (active revision): builds the object — which
sets the composite id — logs it, and with the add step left as the comment
"do add" goes straight to `resourceProfileRead`.  No request of its own is
issued. -/
def resourceProfileCreate (server : Server) (d : ResourceData) :
    Except Err Unit × ResourceData × List Request :=
  let (_itm, d1) := buildProfileObject d
  resourceProfileRead server d1

/-- Go `resourceProfileUpdate` (active revision): the body is a stub that
returns nil without touching state or the network. -/
def resourceProfileUpdate (_server : Server) (d : ResourceData) :
    Except Err Unit × ResourceData × List Request :=
  (.ok (), d, [])

/-- Go `resourceProfileDelete` (active revision): the body is a stub that
returns nil without touching state or the network. -/
def resourceProfileDelete (_server : Server) (d : ResourceData) :
    Except Err Unit × ResourceData × List Request :=
  (.ok (), d, [])

/-! ### Schema validation

The `radius_profile` schema declares, per field, the SDK validators
`StringIsNotWhiteSpace`, `StringMatch` against a literal regex,
`IntBetween` and `StringInSlice`, plus defaults.  Validation runs on the
raw configuration before any CRUD function (hence before any network
call); the model below embeds each declared validator over a raw
configuration record in which an optional field is `none` when the user
left it unset. -/

/-- Characters admitted by the character class 0-9, a-z and the underscore
(codepoints 48-57, 97-122 and 95). -/
def idCharOk (c : Char) : Bool :=
  (48 ≤ c.toNat && c.toNat ≤ 57) || (97 ≤ c.toNat && c.toNat ≤ 122) || c.toNat == 95

/-- Anchored match of the profile-id pattern of 3 to 32 such characters,
used for `profile_id` and each element of `depends`. -/
def profileIdOk (s : String) : Bool :=
  3 ≤ s.length && s.length ≤ 32 && s.toList.all idCharOk

/-- ASCII alphanumeric (the head class of the description pattern). -/
def descHeadOk (c : Char) : Bool :=
  (48 ≤ c.toNat && c.toNat ≤ 57) || (65 ≤ c.toNat && c.toNat ≤ 90)
    || (97 ≤ c.toNat && c.toNat ≤ 122)

/-- Middle class of the description pattern: alphanumeric, comma, full
stop, underscore, hyphen, apostrophe (codepoint 39) or space. -/
def descMidOk (c : Char) : Bool :=
  descHeadOk c || c.toNat == 44 || c.toNat == 46 || c.toNat == 95
    || c.toNat == 45 || c.toNat == 39 || c.toNat == 32

/-- Final class of the description pattern: alphanumeric or full stop. -/
def descTailOk (c : Char) : Bool :=
  descHeadOk c || c.toNat == 46

/-- Anchored match of the description pattern: a head character, 1 to 512
middle characters, then a final character. -/
def descriptionOk (s : String) : Bool :=
  let cs := s.toList
  3 ≤ cs.length && cs.length ≤ 514 &&
    (match cs.head? with
     | none => false
     | some c => descHeadOk c) &&
    (match cs.getLast? with
     | none => false
     | some c => descTailOk c) &&
    (cs.drop 1).dropLast.all descMidOk

/-- Allowed values of the attribute `op` field, from its `StringInSlice`
validator. -/
def opValues : List String :=
  ["=", ":=", "+=", "|=", "|:=", "|+=", "|--"]

/-- Go `strings.TrimSpace` emptiness, the rejection condition of
`StringIsNotWhiteSpace`: every character is ASCII whitespace. -/
def isAllWhiteSpace (s : String) : Bool :=
  s.toList.all fun c =>
    c.toNat == 32 || c.toNat == 9 || c.toNat == 10 || c.toNat == 13
      || c.toNat == 11 || c.toNat == 12

/-- Raw configuration of one attribute block, optional fields unset as
declared in `radiusAttribute`. -/
structure AttrConfig where
  name : String
  value : List String
  op : Option String
  expand : Option Bool
  doXlat : Option Bool
  isJson : Option Bool
deriving Repr, DecidableEq

/-- Raw configuration of a `radius_profile` resource. -/
structure ProfileConfig where
  operator_id : String
  profile_id : String
  enabled : Option Bool
  weight : Option Int
  depends : List String
  description : Option String
  parameter_schema : Option JValue
  reply : List AttrConfig
  control : List AttrConfig
deriving Repr

/-- Validators declared on one attribute block: the name must not be
whitespace and a supplied `op` must be one of `opValues`. -/
def validateAttrConfig (a : AttrConfig) : List String :=
  (if isAllWhiteSpace a.name then ["name must not be whitespace"] else [])
    ++ (match a.op with
        | none => []
        | some o => if opValues.contains o then [] else ["op must be one of the allowed operators"])

/-- Validators declared on the `radius_profile` schema, applied in
declaration order over the raw configuration; the result is the list of
validation errors, empty exactly when the configuration is accepted. -/
def validateProfileConfig (cfg : ProfileConfig) : List String :=
  (if isAllWhiteSpace cfg.operator_id then ["operator_id must not be whitespace"] else [])
    ++ (if profileIdOk cfg.profile_id then [] else ["profile_id must align to regex"])
    ++ (match cfg.weight with
        | none => []
        | some w => if 1 ≤ w ∧ w ≤ 100000 then [] else ["weight expected to be in the range 1 - 100000"])
    ++ cfg.depends.foldr
        (fun s acc => (if profileIdOk s then [] else ["depends entry must align to regex"]) ++ acc) []
    ++ (match cfg.description with
        | none => []
        | some s => if descriptionOk s then [] else ["description must align to regex"])
    ++ cfg.reply.foldr (fun a acc => validateAttrConfig a ++ acc) []
    ++ cfg.control.foldr (fun a acc => validateAttrConfig a ++ acc) []

/-- Defaults declared on one attribute block: `op` defaults to the literal
assignment operator, the three flags to false. -/
def applyAttrDefaults (a : AttrConfig) : RadiusAttribute :=
  { name := a.name
    value := a.value
    op := a.op.getD ":="
    expand := a.expand.getD false
    doXlat := a.doXlat.getD false
    isJson := a.isJson.getD false }

/-- Defaults declared on the `radius_profile` schema, producing the state
`d.Get` exposes: enabled defaults to true, weight to 100, the tracked id
starts empty. -/
def applyProfileDefaults (cfg : ProfileConfig) : ResourceData :=
  { tfId := ""
    operator_id := cfg.operator_id
    profile_id := cfg.profile_id
    enabled := cfg.enabled.getD true
    weight := cfg.weight.getD 100
    depends := cfg.depends
    description := (cfg.description).getD ""
    parameter_schema := cfg.parameter_schema
    reply := cfg.reply.map applyAttrDefaults
    control := cfg.control.map applyAttrDefaults }

/-! ### Token manager

The OAuth client-credentials handling lives in the API client file, which
is not under src/; `configureProvider` only collects client id, secret,
endpoint and scopes into the client options.  The manager is therefore
modelled from the spec. -/

/-- Access token value object: bearer string and expiry instant. -/
structure AccessToken where
  token : String
  expiry : Nat
deriving Repr, DecidableEq

/-- Successful answer of the client-credentials grant endpoint. -/
structure GrantResponse where
  accessToken : String
  expiresIn : Nat
deriving Repr, DecidableEq

/-- Modelled from the spec: `get_token` of the Token Manager (API client
code not under src/).  With no cached token, or a cached token whose
expiry is at or before now, it performs the client-credentials grant and
caches the result, failing with the grant's `AuthError` if the grant
fails; otherwise it returns the cached token.  The returned state is the
cache after the call. -/
def getToken (cached : Option AccessToken) (now : Nat)
    (grant : Except String GrantResponse) :
    Except String (AccessToken × Option AccessToken) :=
  match cached with
  | some t =>
    if now < t.expiry then .ok (t, some t)
    else
      match grant with
      | .error e => .error e
      | .ok g =>
        let fresh : AccessToken := ⟨g.accessToken, now + g.expiresIn⟩
        .ok (fresh, some fresh)
  | none =>
    match grant with
    | .error e => .error e
    | .ok g =>
      let fresh : AccessToken := ⟨g.accessToken, now + g.expiresIn⟩
      .ok (fresh, some fresh)

/-! ### Concrete test fixtures -/

/-- Server answering 404 to every request (empty remote store). -/
def server404 : Server := fun _ => .resp 404 .null

/-- Server answering 500 with an error body to every request. -/
def server500 : Server := fun _ => .resp 500 (.str "internal error")

/-- Server whose transport always fails. -/
def serverDown : Server := fun _ => .netFail "connection refused"

/-- Server answering 200 with a body that does not decode as a profile. -/
def serverBadBody : Server := fun _ => .resp 200 (.str "not a profile document")

/-- Sample reply attribute. -/
def exampleAttr : RadiusAttribute :=
  ⟨"Reply-Message", ["hello"], ":=", false, false, false⟩

/-- Sample resource state: operator op1, profile abc, weight 50, enabled. -/
def exampleData : ResourceData :=
  ⟨"", "op1", "abc", true, 50, ["base"], "a test profile", none, [exampleAttr], []⟩

/-- Server that echoes back the document `buildProfileObject` serializes for
`exampleData`, as a store holding exactly that profile would. -/
def serverEchoExample : Server :=
  fun _ => .resp 200 (marshalProfile (buildProfileObject exampleData).1)

/-- Attribute block configuration leaving `op` unset. -/
def attrNoOp : AttrConfig := ⟨"Reply-Message", ["hello"], none, none, none, none⟩

/-- Attribute block configuration with the rejected operator value. -/
def attrBogus : AttrConfig := ⟨"Reply-Message", ["hello"], some "bogus", none, none, none⟩

/-- Valid baseline configuration. -/
def cfgBase : ProfileConfig :=
  ⟨"op1", "abc", some true, some 50, [], none, none, [], []⟩

/-- Configuration whose profile id is too short for the pattern. -/
def cfgBadId : ProfileConfig := { cfgBase with profile_id := "ab" }

/-- Configuration whose weight is below the allowed range. -/
def cfgBadWeight : ProfileConfig := { cfgBase with weight := some 0 }

/-- Configuration with a reply attribute using the rejected operator. -/
def cfgBadOp : ProfileConfig := { cfgBase with reply := [attrBogus] }

/-! ### Helper lemmas -/

theorem decodeStrElems_map (xs : List String) :
    decodeStrElems (xs.map JValue.str) = .ok xs := by
  induction xs with
  | nil => rfl
  | cons x xs ih =>
    simp [decodeStrElems, decodeString, ih, bind, Except.bind, pure, Except.pure]

theorem decodeAttribute_marshal (a : RadiusAttribute) :
    decodeAttribute (marshalAttribute a) = .ok a := by
  rcases a with ⟨name, value, op, expand, doXlat, isJson⟩
  by_cases h : op = "" <;>
    simp [marshalAttribute, decodeAttribute, jLookup, h, decodeString, decodeBool,
      decodeStrList, decodeStrElems_map, bind, Except.bind, pure, Except.pure]

theorem decodeAttrElems_map (as : List RadiusAttribute) :
    decodeAttrElems (as.map marshalAttribute) = .ok as := by
  induction as with
  | nil => rfl
  | cons a as ih =>
    simp [decodeAttrElems, decodeAttribute_marshal, ih, bind, Except.bind, pure, Except.pure]

theorem decodeRadius_marshal (pa : RadiusProfileAttributes) :
    decodeRadius (some (marshalRadius pa)) = .ok pa := by
  rcases pa with ⟨reply, control⟩
  by_cases hr : reply = [] <;> by_cases hc : control = [] <;>
    simp [marshalRadius, decodeRadius, jLookup, hr, hc, decodeAttrList,
      decodeAttrElems_map, bind, Except.bind, pure, Except.pure]

theorem unmarshalProfile_marshal (p : RadiusProfile) (hp : p.parameterSchema = none) :
    unmarshalProfile (marshalProfile p) = .ok p := by
  rcases p with ⟨id, state, weight, depends, description, radius, ps⟩
  simp only at hp
  subst hp
  by_cases hd : depends = [] <;> by_cases hs : description = "" <;>
    simp [marshalProfile, unmarshalProfile, jLookup, hd, hs, decodeString, decodeInt,
      decodeStrList, decodeStrElems_map, decodeRadius_marshal, decodeSchemaField,
      bind, Except.bind, pure, Except.pure]

theorem state_beq_enabled (b : Bool) :
    ((if b then "enabled" else "disabled") == "enabled") = b := by
  cases b <;> rfl

theorem foldr_mem_ne_nil {α : Type} (f : α → List String) (l : List α) (a : α)
    (ha : a ∈ l) (hf : f a ≠ []) :
    l.foldr (fun x acc => f x ++ acc) [] ≠ [] := by
  induction l with
  | nil => cases ha
  | cons x xs ih =>
    intro hc
    rw [List.foldr_cons] at hc
    rcases List.append_eq_nil.mp hc with ⟨h1, h2⟩
    rcases List.mem_cons.mp ha with h | h
    · exact hf (by rw [h]; exact h1)
    · exact ih h h2

/-! ### Claim theorems -/

/-- C1: on a profile read, a 404 answer is the absent sentinel, not an
error: `getProfile` returns neither an object nor an error, and
`resourceProfileRead` then clears the tracked identifier and succeeds;
while a non-404, non-2xx answer fails the read with the ApiError carrying
status and body. -/
theorem read_404_absent_other_api_error (server : Server) (d : ResourceData)
    (status : Nat) (body : JValue)
    (hs : server (profileReadRequest d.operator_id d.profile_id) = .resp status body) :
    (status = 404 →
      getProfile server d.operator_id d.profile_id =
        (.ok none, [profileReadRequest d.operator_id d.profile_id]) ∧
      resourceProfileRead server d =
        (.ok (), { d with tfId := "" }, [profileReadRequest d.operator_id d.profile_id])) ∧
    (¬ (200 ≤ status ∧ status < 300) → status ≠ 404 →
      resourceProfileRead server d =
        (.error (.apiErr status body), d, [profileReadRequest d.operator_id d.profile_id])) := by
  simp only [profileReadRequest] at hs
  constructor
  · intro h404
    subst h404
    have hg : getProfile server d.operator_id d.profile_id =
        (.ok none, [profileReadRequest d.operator_id d.profile_id]) := by
      simp [getProfile, sendRequest, profileReadRequest, hs]
    exact ⟨hg, by simp [resourceProfileRead, hg]⟩
  · intro hnot hne
    have hg : getProfile server d.operator_id d.profile_id =
        (.error (.apiErr status body), [profileReadRequest d.operator_id d.profile_id]) := by
      simp [getProfile, sendRequest, profileReadRequest, hs, hnot, hne]
    simp [resourceProfileRead, hg]

/-- C1 witness: a 404 read clears the id and succeeds, a 500 read fails
with the ApiError, at concrete inputs. -/
theorem read_404_absent_other_api_error_witness :
    resourceProfileRead server404 exampleData =
      (.ok (), { exampleData with tfId := "" }, [profileReadRequest "op1" "abc"]) ∧
    resourceProfileRead server500 exampleData =
      (.error (.apiErr 500 (.str "internal error")), exampleData,
        [profileReadRequest "op1" "abc"]) :=
  ⟨((read_404_absent_other_api_error server404 exampleData 404 .null rfl).1 rfl).2,
   (read_404_absent_other_api_error server500 exampleData 500 (.str "internal error") rfl).2
     (by decide) (by decide)⟩

/-- C2 evaluation: the active delete returns success with an empty request
trace even against a server that would answer 500 to the destroy request,
so no HTTP request is issued and no ApiError can arise. -/
theorem delete_stub_returns_success_without_request :
    resourceProfileDelete server500 exampleData = (.ok (), exampleData, []) := rfl

/-- C3 evaluation: create issues no POST; its whole trace is the single GET
of the follow-up read, which on an empty server answers 404, so the
freshly created object is reported absent (tracked id cleared) instead of
reading back weight 50. -/
theorem create_issues_no_post :
    resourceProfileCreate server404 exampleData =
      (.ok (), { exampleData with tfId := "" }, [profileReadRequest "op1" "abc"]) := rfl

/-- C4: when the read is answered with exactly the document serialized by
the create, the create-then-read cycle reproduces every field of the
resource state — profile id, enabled flag, weight, description, depends
and both attribute lists in order — changing only the tracked composite
identifier. -/
theorem create_read_roundtrip (server : Server) (d : ResourceData)
    (hs : server (profileReadRequest d.operator_id d.profile_id) =
      .resp 200 (marshalProfile (buildProfileObject d).1)) :
    resourceProfileCreate server d =
      (.ok (), { d with tfId := d.operator_id ++ "/" ++ d.profile_id },
        [profileReadRequest d.operator_id d.profile_id]) := by
  rcases d with ⟨tfId, oid, pid, en, w, dep, desc, ps, rep, ctl⟩
  simp only [profileReadRequest, buildProfileObject] at hs
  cases en <;>
    simp [resourceProfileCreate, buildProfileObject, resourceProfileRead, getProfile,
      sendRequest, profileReadRequest, hs, unmarshalProfile_marshal, setProfileFields,
      state_beq_enabled]

/-- C4 witness: the round trip at a concrete profile with weight 50. -/
theorem create_read_roundtrip_witness :
    resourceProfileCreate serverEchoExample exampleData =
      (.ok (), { exampleData with tfId := "op1" ++ "/" ++ "abc" },
        [profileReadRequest "op1" "abc"]) :=
  create_read_roundtrip serverEchoExample exampleData rfl

/-- C5: validation, a pure function of the raw configuration that involves
no server, rejects a profile id outside the anchored pattern, a weight
outside 1..100000 and an attribute operator outside the allowed set, and
an unspecified operator defaults to the assignment operator. -/
theorem profile_validation_rules (cfg : ProfileConfig) (a : AttrConfig) :
    (profileIdOk cfg.profile_id = false → validateProfileConfig cfg ≠ []) ∧
    (∀ w, cfg.weight = some w → ¬ (1 ≤ w ∧ w ≤ 100000) → validateProfileConfig cfg ≠ []) ∧
    (∀ o, a.op = some o → opValues.contains o = false →
      (a ∈ cfg.reply ∨ a ∈ cfg.control) → validateProfileConfig cfg ≠ []) ∧
    (a.op = none → (applyAttrDefaults a).op = ":=") := by
  refine ⟨?_, ?_, ?_, ?_⟩
  · intro h hc
    simp only [validateProfileConfig] at hc
    have h1 := List.append_eq_nil.mp hc
    have h2 := List.append_eq_nil.mp h1.1
    have h3 := List.append_eq_nil.mp h2.1
    have h4 := List.append_eq_nil.mp h3.1
    have h5 := List.append_eq_nil.mp h4.1
    have h6 := List.append_eq_nil.mp h5.1
    have hx := h6.2
    simp [h] at hx
  · intro w hw hr hc
    simp only [validateProfileConfig] at hc
    have h1 := List.append_eq_nil.mp hc
    have h2 := List.append_eq_nil.mp h1.1
    have h3 := List.append_eq_nil.mp h2.1
    have h4 := List.append_eq_nil.mp h3.1
    have h5 := List.append_eq_nil.mp h4.1
    have hx := h5.2
    rw [hw] at hx
    simp [hr] at hx
  · intro o ho hco hmem hc
    have hf : validateAttrConfig a ≠ [] := by
      intro hx
      simp only [validateAttrConfig, ho] at hx
      rw [hco] at hx
      simp at hx
    simp only [validateProfileConfig] at hc
    have h1 := List.append_eq_nil.mp hc
    have h2 := List.append_eq_nil.mp h1.1
    rcases hmem with hm | hm
    · exact foldr_mem_ne_nil validateAttrConfig cfg.reply a hm hf h2.2
    · exact foldr_mem_ne_nil validateAttrConfig cfg.control a hm hf h1.2
  · intro h
    simp [applyAttrDefaults, h]

/-- C5 witness: a two-character id, weight 0 and operator value bogus are
each rejected, and an unset operator defaults, at concrete inputs. -/
theorem profile_validation_rules_witness :
    validateProfileConfig cfgBadId ≠ [] ∧ validateProfileConfig cfgBadWeight ≠ [] ∧
    validateProfileConfig cfgBadOp ≠ [] ∧ (applyAttrDefaults attrNoOp).op = ":=" :=
  ⟨(profile_validation_rules cfgBadId attrNoOp).1 rfl,
   (profile_validation_rules cfgBadWeight attrNoOp).2.1 0 rfl (by decide),
   (profile_validation_rules cfgBadOp attrBogus).2.2.1 "bogus" rfl rfl
     (Or.inl (by simp [cfgBadOp, cfgBase])),
   (profile_validation_rules cfgBadId attrNoOp).2.2.2 rfl⟩

/-- C6: the tracked identifier set by `buildProfileObject` is the composite
operator id, slash, profile id, while the read request path ends in the
profile id alone. -/
theorem composite_id_and_path (server : Server) (d : ResourceData) :
    (buildProfileObject d).2.tfId = d.operator_id ++ "/" ++ d.profile_id ∧
    (buildProfileObject d).1.id = d.profile_id ∧
    (getProfile server d.operator_id d.profile_id).2 =
      [⟨"GET", "/operator/" ++ d.operator_id ++ "/profile/" ++ d.profile_id, ""⟩] :=
  ⟨rfl, rfl, rfl⟩

/-- C7: a token handed out by `get_token` always expires strictly after
now, and when the cached token is stale the result is the freshly granted
token, never the stale one. -/
theorem token_never_stale (cached : Option AccessToken) (now : Nat)
    (g : GrantResponse) (t : AccessToken) (st : Option AccessToken) (c : AccessToken)
    (hg : 0 < g.expiresIn)
    (h : getToken cached now (.ok g) = .ok (t, st)) :
    now < t.expiry ∧
      (cached = some c → c.expiry ≤ now →
        t.token = g.accessToken ∧ t.expiry = now + g.expiresIn) := by
  cases cached with
  | none =>
    simp only [getToken] at h
    cases h
    exact ⟨by simp; omega, by intro hc; cases hc⟩
  | some tc =>
    simp only [getToken] at h
    by_cases hlt : now < tc.expiry
    · rw [if_pos hlt] at h
      cases h
      refine ⟨hlt, ?_⟩
      intro hc hle
      cases hc
      omega
    · rw [if_neg hlt] at h
      cases h
      exact ⟨by simp; omega, fun _ _ => ⟨rfl, rfl⟩⟩

/-- C7 witness: at time 5 a token cached with expiry 5 is stale, the grant
result with lifetime 10 is returned instead, and it expires at 15. -/
theorem token_never_stale_witness :
    (5 : Nat) < 15 ∧ ("new" = "new" ∧ (15 : Nat) = 5 + 10) :=
  have h := token_never_stale (some ⟨"old", 5⟩) 5 ⟨"new", 10⟩ ⟨"new", 15⟩
    (some ⟨"new", 15⟩) ⟨"old", 5⟩ (by decide) rfl
  ⟨h.1, h.2 rfl (by decide)⟩

/-- C8: the active update and delete are unconditional no-ops: success,
untouched state, empty request trace, whatever the server would answer. -/
theorem update_delete_are_noops (server : Server) (d : ResourceData) :
    resourceProfileUpdate server d = (.ok (), d, []) ∧
    resourceProfileDelete server d = (.ok (), d, []) :=
  ⟨rfl, rfl⟩

/-- C9: a transport failure, and a 2xx body that fails unmarshalling, each
make the read fail with that error while the resource state, tracked
identifier included, is returned untouched. -/
theorem read_error_preserves_state (server : Server) (d : ResourceData) :
    (∀ msg, server (profileReadRequest d.operator_id d.profile_id) = .netFail msg →
      resourceProfileRead server d =
        (.error (.transportErr msg), d, [profileReadRequest d.operator_id d.profile_id])) ∧
    (∀ status body msg,
      server (profileReadRequest d.operator_id d.profile_id) = .resp status body →
      200 ≤ status → status < 300 → unmarshalProfile body = .error msg →
      resourceProfileRead server d =
        (.error (.parseErr msg), d, [profileReadRequest d.operator_id d.profile_id])) := by
  constructor
  · intro msg hs
    simp only [profileReadRequest] at hs
    simp [resourceProfileRead, getProfile, sendRequest, profileReadRequest, hs]
  · intro status body msg hs h1 h2 hum
    simp only [profileReadRequest] at hs
    have hne : ¬ status = 404 := by omega
    simp [resourceProfileRead, getProfile, sendRequest, profileReadRequest, hs, h1, h2,
      hne, hum]

/-- C9 witness: a refused connection and an undecodable 200 body, at
concrete inputs, each fail the read and leave the state untouched. -/
theorem read_error_preserves_state_witness :
    resourceProfileRead serverDown exampleData =
      (.error (.transportErr "connection refused"), exampleData,
        [profileReadRequest "op1" "abc"]) ∧
    resourceProfileRead serverBadBody exampleData =
      (.error (.parseErr "cannot unmarshal into Go value of type RadiusProfile"),
        exampleData, [profileReadRequest "op1" "abc"]) :=
  ⟨(read_error_preserves_state serverDown exampleData).1 "connection refused" rfl,
   (read_error_preserves_state serverBadBody exampleData).2 200
     (.str "not a profile document")
     "cannot unmarshal into Go value of type RadiusProfile" rfl (by decide) (by decide) rfl⟩

/-- C10: serialization maps the enabled flag to the states enabled and
disabled, the read maps the state string back to the flag by comparison
with enabled only, so the state unknown reads back as disabled and
re-serializes as disabled. -/
theorem enabled_state_mapping (d : ResourceData) (obj : RadiusProfile) :
    ((buildProfileObject d).1.state = if d.enabled then "enabled" else "disabled") ∧
    ((setProfileFields d obj).enabled = (obj.state == "enabled")) ∧
    ((setProfileFields d { obj with state := "unknown" }).enabled = false) ∧
    ((buildProfileObject (setProfileFields d { obj with state := "unknown" })).1.state
      = "disabled") :=
  ⟨rfl, rfl, rfl, rfl⟩

end RestApi
